import Mathlib

/-!
Shallow embedding of the Dashbord backend (Express + Mongoose):
the authentication/authorization middleware chain (src/middleware/auth.js),
the user routes (profile / account deletion / search) and the data routes
(CRUD on data records with ownership checks, validation and pagination).

The document store is modelled as in-memory lists of documents; the token
codec and the store's sort are external collaborators passed as functions.
All definitions are translated from the JavaScript source handlers.
-/

namespace Dashbord

/-- The characters of a string, lowercased. -/
def lowerStr (s : String) : List Char := s.data.map Char.toLower

/-- Case-insensitive substring containment, modelling a case-insensitive
regex test of a pattern that contains no metacharacters. -/
def containsCI (hay pat : String) : Bool :=
  decide (lowerStr pat <:+: lowerStr hay)

/-- JavaScript `String.prototype.trim`: strip leading and trailing
whitespace. -/
def jsTrim (s : String) : String :=
  ⟨(((s.data.dropWhile Char.isWhitespace).reverse.dropWhile
      Char.isWhitespace).reverse)⟩

/-- A user document (src/models/User.js), restricted to the fields the
handlers under verification read. -/
structure User where
  id : Nat
  name : String
  email : String
  firstName : String
  lastName : String
  role : String
  isActive : Bool
deriving DecidableEq, Repr

/-- A data record document (src/models/Data.js), restricted to the fields
the handlers read and write. -/
structure DataRecord where
  id : Nat
  title : String
  description : String
  category : String
  value : Int
  unit : String
  status : String
  tags : List String
  isPublic : Bool
  metaSource : String
  user : Nat
deriving DecidableEq, Repr

/-- The document store: one collection per entity. -/
structure DB where
  users : List User
  records : List DataRecord
deriving DecidableEq, Repr

/-- `Data.findById`: first record with the given id. -/
def findRecord (db : DB) (rid : Nat) : Option DataRecord :=
  db.records.find? (fun r => r.id == rid)

/-- `User.findById`: first user with the given id. -/
def findUserById (db : DB) (uid : Nat) : Option User :=
  db.users.find? (fun u => u.id == uid)

/-- A JSON value supplied in a numeric field of a request body:
either a number or something of another `typeof`. -/
inductive JsonValue
  | num (n : Int)
  | notNum
deriving DecidableEq, Repr

/-- A JSON value supplied in the `tags` field: an array of strings or a
non-array value (the handlers test `Array.isArray(tags)`). -/
inductive JTags
  | arr (xs : List String)
  | notArr
deriving DecidableEq, Repr

/-- Outcome of `jwt.verify` on a presented token: a decoded user-id claim,
a `JsonWebTokenError`, a `TokenExpiredError`, or an unexpected error. -/
inductive TokenOutcome
  | valid (userId : Nat)
  | invalidSig
  | expired
  | verifyError
deriving DecidableEq, Repr

/-- Outcome of the `User.findById` store round trip inside the middleware. -/
inductive LookupOutcome
  | found (u : User)
  | notFound
  | storeError
deriving DecidableEq, Repr

/-- Result of a middleware stage: attach `req.user` and call `next()`,
call `next()` without attaching, or send a response and stop. -/
inductive MWResult
  | attach (u : User)
  | proceed
  | respond (status : Nat) (msg : String)
deriving DecidableEq, Repr

/-- `authenticateToken` (src/middleware/auth.js lines 8-59): required
authentication. `verify` is the token codec, `lookup` the user store,
`token` the bearer token extracted from the Authorization header. -/
def authenticateToken (verify : String → TokenOutcome)
    (lookup : Nat → LookupOutcome) (token : Option String) : MWResult :=
  match token with
  | none => .respond 401 "Access denied. No token provided."
  | some t =>
    match verify t with
    | .invalidSig => .respond 401 "Invalid token."
    | .expired => .respond 401 "Token expired."
    | .verifyError => .respond 500 "Internal server error during authentication."
    | .valid uid =>
      match lookup uid with
      | .storeError => .respond 500 "Internal server error during authentication."
      | .notFound => .respond 401 "Invalid token. User not found."
      | .found u =>
        if u.isActive then .attach u
        else .respond 401 "Account is deactivated."

/-- `optionalAuth` (src/middleware/auth.js lines 106-125): attaches the
user when the token verifies and the user is active, otherwise proceeds
without attaching; every thrown error is swallowed by `next()`. -/
def optionalAuth (verify : String → TokenOutcome)
    (lookup : Nat → LookupOutcome) (token : Option String) : MWResult :=
  match token with
  | none => .proceed
  | some t =>
    match verify t with
    | .valid uid =>
      match lookup uid with
      | .found u => if u.isActive then .attach u else .proceed
      | .notFound => .proceed
      | .storeError => .proceed
    | .invalidSig => .proceed
    | .expired => .proceed
    | .verifyError => .proceed

/-- `requireAdmin` (src/middleware/auth.js lines 64-78): `ru` is the
identity attached to the request context, if any. -/
def requireAdmin (ru : Option User) : MWResult :=
  match ru with
  | none => .respond 401 "Authentication required."
  | some u =>
    if u.role ≠ "admin" then .respond 403 "Admin access required."
    else .proceed

/-- `requireOwnership` (src/middleware/auth.js lines 83-100): allow when
the attached identity owns the resource or has the admin role. -/
def requireOwnership (resourceUserId : Nat) (ru : Option User) : MWResult :=
  match ru with
  | none => .respond 401 "Authentication required."
  | some u =>
    if u.id = resourceUserId ∨ u.role = "admin" then .proceed
    else .respond 403 "Access denied. You can only modify your own resources."

/-- Response of a single-document handler: HTTP status, error message when
the envelope carries one, returned record when it carries one, and the
store state after the handler ran. -/
structure HandlerOut where
  status : Nat
  errMsg : Option String
  data : Option DataRecord := none
  db : DB
deriving DecidableEq, Repr

/-- The category enum of the data schema and the POST/PUT validators. -/
def validCategories : List String :=
  ["analytics", "reports", "insights", "metrics", "other"]

/-- The status enum of the data schema and the PUT validator. -/
def validStatuses : List String := ["active", "inactive", "pending"]

/-- Request body of POST /api/data, destructured as in the handler;
`none` stands for an absent field. -/
structure CreateBody where
  title : Option String := none
  description : Option String := none
  category : Option String := none
  value : Option JsonValue := none
  unit : Option String := none
  tags : Option JTags := none
  isPublic : Option Bool := none
  metaSource : Option String := none
deriving DecidableEq, Repr

/-- `tags && Array.isArray(tags) ? tags.filter(tag => tag.trim()) : []`. -/
def tagsOf : JTags → List String
  | .arr xs => xs.filter (fun t => jsTrim t ≠ "")
  | .notArr => []

/-- POST /api/data handler (routes/data.js lines 12-78). `newId` is the
object id the store assigns to the inserted document; `u` is `req.user`. -/
def postData (db : DB) (u : User) (newId : Nat) (b : CreateBody) : HandlerOut :=
  match b.title, b.category, b.value with
  | some t, some c, some v =>
    if t = "" ∨ c = "" then
      { status := 400, errMsg := some "Title, category, and value are required", db }
    else if ¬ validCategories.contains c then
      { status := 400, errMsg := some "Invalid category", db }
    else
      match v with
      | .notNum =>
        { status := 400, errMsg := some "Value must be a positive number", db }
      | .num n =>
        if n < 0 then
          { status := 400, errMsg := some "Value must be a positive number", db }
        else
          let newData : DataRecord :=
            { id := newId
              title := jsTrim t
              description := jsTrim (b.description.getD "")
              category := c
              value := n
              unit := jsTrim (b.unit.getD "")
              status := "active"
              tags := (b.tags.map tagsOf).getD []
              isPublic := b.isPublic.getD false
              metaSource := b.metaSource.getD "manual"
              user := u.id }
          { status := 201, errMsg := none, data := some newData,
            db := { db with records := db.records ++ [newData] } }
  | _, _, _ =>
    { status := 400, errMsg := some "Title, category, and value are required", db }

/-- GET /api/data/:id handler (routes/data.js lines 149-184): load then
check ownership by comparing the stored owner to `req.user._id`. -/
def getDataById (db : DB) (u : User) (rid : Nat) : HandlerOut :=
  match findRecord db rid with
  | none => { status := 404, errMsg := some "Data record not found", db }
  | some d =>
    if d.user ≠ u.id then
      { status := 403, errMsg := some "Access denied", db }
    else
      { status := 200, errMsg := none, data := some d, db }

/-- Request body of PUT /api/data/:id, destructured as in the handler. -/
structure UpdateBody where
  title : Option String := none
  description : Option String := none
  category : Option String := none
  value : Option JsonValue := none
  unit : Option String := none
  tags : Option JTags := none
  status : Option String := none
  isPublic : Option Bool := none
deriving DecidableEq, Repr

/-- The `$set` document built by the PUT handler: one optional entry per
updatable field; the owning `user` reference has no entry. -/
structure UpdateFields where
  title : Option String := none
  description : Option String := none
  category : Option String := none
  value : Option Int := none
  unit : Option String := none
  tags : Option (List String) := none
  status : Option String := none
  isPublic : Option Bool := none
deriving DecidableEq, Repr

/-- Category validation of the PUT handler. -/
def checkCategory : Option String → Except String (Option String)
  | none => .ok none
  | some c =>
    if validCategories.contains c then .ok (some c)
    else .error "Invalid category"

/-- Value validation of the PUT handler:
`typeof value !== 'number' || value < 0`. -/
def checkValue : Option JsonValue → Except String (Option Int)
  | none => .ok none
  | some (.num n) =>
    if n < 0 then .error "Value must be a positive number" else .ok (some n)
  | some .notNum => .error "Value must be a positive number"

/-- Status validation of the PUT handler. -/
def checkStatus : Option String → Except String (Option String)
  | none => .ok none
  | some s =>
    if validStatuses.contains s then .ok (some s)
    else .error "Invalid status"

/-- Builds the `updateFields` object of the PUT handler (routes/data.js
lines 212-244): only fields present in the body get an entry; the first
failing validation aborts with its error message. -/
def buildUpdateFields (b : UpdateBody) : Except String UpdateFields := do
  let catF ← checkCategory b.category
  let valF ← checkValue b.value
  let stF ← checkStatus b.status
  pure
    { title := b.title.map jsTrim
      description := b.description.map jsTrim
      category := catF
      value := valF
      unit := b.unit.map jsTrim
      tags := b.tags.map tagsOf
      status := stF
      isPublic := b.isPublic }

/-- Effect of `findByIdAndUpdate(id, { $set: uf })` on one document:
present entries overwrite, absent entries leave the field untouched. -/
def applySet (d : DataRecord) (uf : UpdateFields) : DataRecord :=
  { d with
    title := uf.title.getD d.title
    description := uf.description.getD d.description
    category := uf.category.getD d.category
    value := uf.value.getD d.value
    unit := uf.unit.getD d.unit
    tags := uf.tags.getD d.tags
    status := uf.status.getD d.status
    isPublic := uf.isPublic.getD d.isPublic }

/-- PUT /api/data/:id handler (routes/data.js lines 191-278): load, check
ownership, validate, then `$set` only the supplied fields. -/
def putDataById (db : DB) (u : User) (rid : Nat) (b : UpdateBody) : HandlerOut :=
  match findRecord db rid with
  | none => { status := 404, errMsg := some "Data record not found", db }
  | some d =>
    if d.user ≠ u.id then
      { status := 403, errMsg := some "Access denied", db }
    else
      match buildUpdateFields b with
      | .error m => { status := 400, errMsg := some m, db }
      | .ok uf =>
        { status := 200, errMsg := none, data := some (applySet d uf),
          db := { db with records :=
            db.records.map (fun r => if r.id = rid then applySet r uf else r) } }

/-- DELETE /api/data/:id handler (routes/data.js lines 285-321). -/
def deleteDataById (db : DB) (u : User) (rid : Nat) : HandlerOut :=
  match findRecord db rid with
  | none => { status := 404, errMsg := some "Data record not found", db }
  | some d =>
    if d.user ≠ u.id then
      { status := 403, errMsg := some "Access denied", db }
    else
      { status := 200, errMsg := none,
        db := { db with records := db.records.filter (fun r => r.id ≠ rid) } }

/-- `Data.deleteMany({ user: uid })`. -/
def deleteUserData (db : DB) (uid : Nat) : DB :=
  { db with records := db.records.filter (fun r => r.user ≠ uid) }

/-- `User.findByIdAndDelete(uid)`. -/
def deleteUserDoc (db : DB) (uid : Nat) : DB :=
  { db with users := db.users.filter (fun x => x.id ≠ uid) }

set_option linter.unusedVariables false in
/-- DELETE /api/user/account handler (routes/user.js lines 272-296): the
body's `password` field is destructured but never used; the user's data
records are deleted first, then the user document. -/
def deleteAccount (db : DB) (u : User) (password : Option String) : HandlerOut :=
  let db1 := deleteUserData db u.id
  let db2 := deleteUserDoc db1 u.id
  { status := 200, errMsg := none, db := db2 }

/-- Pagination envelope echoed by the list endpoints. -/
structure Pagination where
  page : Nat
  limit : Nat
  total : Nat
  pages : Nat
deriving DecidableEq, Repr

/-- Response of a list handler over items of type `α`. -/
structure ListOut (α : Type) where
  status : Nat
  errMsg : Option String
  items : List α
  pagination : Option Pagination
deriving DecidableEq, Repr

/-- `Math.ceil(total / limit)` on naturals (for a positive limit). -/
def jsCeilDiv (total limit : Nat) : Nat := (total + limit - 1) / limit

/-- Query parameters of GET /api/data recognised by the handler (after
`parseInt` of `page` and `limit`, which default to 1 and 10). -/
structure ListQuery where
  page : Nat := 1
  limit : Nat := 10
  category : Option String := none
  status : Option String := none
  search : Option String := none
deriving DecidableEq, Repr

/-- The Mongo filter built by GET /api/data: own records, optional exact
category and status, optional case-insensitive search across
title/description/tags. -/
def matchesFilter (uid : Nat) (q : ListQuery) (r : DataRecord) : Bool :=
  r.user == uid &&
  (match q.category with | none => true | some c => r.category == c) &&
  (match q.status with | none => true | some s => r.status == s) &&
  (match q.search with
   | none => true
   | some s =>
     containsCI r.title (jsTrim s) || containsCI r.description (jsTrim s) ||
     r.tags.any (fun t => containsCI t (jsTrim s)))

/-- GET /api/data handler (routes/data.js lines 85-142). `sortFn` is the
store's sort (an external collaborator keyed by `sortBy`/`sortOrder`);
skip and limit are applied after it, and `total` counts the whole
filtered collection. -/
def listData (sortFn : List DataRecord → List DataRecord)
    (db : DB) (u : User) (q : ListQuery) : ListOut DataRecord :=
  let filtered := db.records.filter (matchesFilter u.id q)
  let items := ((sortFn filtered).drop ((q.page - 1) * q.limit)).take q.limit
  let total := filtered.length
  { status := 200, errMsg := none, items,
    pagination := some
      { page := q.page, limit := q.limit, total
        pages := jsCeilDiv total q.limit } }

/-- The Mongo `$or` filter of GET /api/user/search over
name/email/firstName/lastName. -/
def matchesUserSearch (pat : String) (x : User) : Bool :=
  containsCI x.name pat || containsCI x.email pat ||
  containsCI x.firstName pat || containsCI x.lastName pat

/-- GET /api/user/search handler (routes/user.js lines 303-353). `sortFn`
is the store's `createdAt` sort; `query` is the raw query parameter
(`none` when absent). -/
def searchUsers (sortFn : List User → List User) (db : DB)
    (query : Option String) (limit page : Nat) : ListOut User :=
  match query with
  | none =>
    { status := 400,
      errMsg := some "Search query must be at least 2 characters long",
      items := [], pagination := none }
  | some qs =>
    if (jsTrim qs).length < 2 then
      { status := 400,
        errMsg := some "Search query must be at least 2 characters long",
        items := [], pagination := none }
    else
      let pat := jsTrim qs
      let matched := db.users.filter (matchesUserSearch pat)
      let items := ((sortFn matched).drop ((page - 1) * limit)).take limit
      let total := matched.length
      { status := 200, errMsg := none, items,
        pagination := some
          { page, limit, total, pages := jsCeilDiv total limit } }

/-! Concrete fixtures for witnesses and counterexamples. -/

/-- A regular user who owns the fixture record. -/
def uOwner : User :=
  { id := 1, name := "Olive Owner", email := "olive@example.com",
    firstName := "Olive", lastName := "Owner", role := "user", isActive := true }

/-- An admin whose id differs from the fixture record's owner. -/
def uAdmin : User :=
  { id := 2, name := "Ada Admin", email := "ada@example.com",
    firstName := "Ada", lastName := "Admin", role := "admin", isActive := true }

/-- A data record owned by `uOwner`. -/
def recA : DataRecord :=
  { id := 10, title := "CPU", description := "load", category := "metrics",
    value := 42, unit := "%", status := "active", tags := ["prod"],
    isPublic := false, metaSource := "manual", user := 1 }

/-- The fixture store. -/
def exDB : DB := { users := [uOwner, uAdmin], records := [recA] }

/-- A fixture token codec: one token decodes to user id 1, one is
expired, everything else has a bad signature. -/
def vFix : String → TokenOutcome := fun t =>
  if t = "tok-owner" then .valid 1
  else if t = "tok-expired" then .expired
  else .invalidSig

/-- A fixture user store: id 1 is `uOwner`, everything else is missing. -/
def lFix : Nat → LookupOutcome := fun uid =>
  if uid = 1 then .found uOwner else .notFound

/-! Theorems settling the claims. -/

/-- C1 (counterexample): the claim says an identity with role `admin` is
allowed to access another user's record through GET/PUT/DELETE
/api/data/:id, but the handlers compare owner ids only: the admin `uAdmin`
is rejected with 403 "Access denied" on all three routes even though the
record exists and `uAdmin.role = "admin"`. -/
theorem c1_admin_not_exempt_counterexample :
    uAdmin.role = "admin" ∧ findRecord exDB 10 = some recA ∧
    recA.user ≠ uAdmin.id ∧
    getDataById exDB uAdmin 10 =
      { status := 403, errMsg := some "Access denied", db := exDB } ∧
    putDataById exDB uAdmin 10 {} =
      { status := 403, errMsg := some "Access denied", db := exDB } ∧
    deleteDataById exDB uAdmin 10 =
      { status := 403, errMsg := some "Access denied", db := exDB } := by
  decide

/-- C1 (amended): whenever GET/PUT/DELETE /api/data/:id resolves to an
existing record whose stored owner differs from the authenticated
identity's id, the request is rejected with 403 "Access denied" and the
store is unchanged — regardless of the identity's role (the handlers have
no admin bypass; only the unused `requireOwnership` middleware has one). -/
theorem c1_ownership_rejects_nonowner (db : DB) (u : User) (rid : Nat)
    (d : DataRecord) (hfind : findRecord db rid = some d)
    (hne : d.user ≠ u.id) :
    getDataById db u rid =
      { status := 403, errMsg := some "Access denied", db := db } ∧
    (∀ b : UpdateBody, putDataById db u rid b =
      { status := 403, errMsg := some "Access denied", db := db }) ∧
    deleteDataById db u rid =
      { status := 403, errMsg := some "Access denied", db := db } := by
  refine ⟨?_, fun b => ?_, ?_⟩ <;>
    simp [getDataById, putDataById, deleteDataById, hfind, hne]

/-- C1 witness: the amended theorem applied to the fixture store, the
admin caller and the record owned by someone else. -/
theorem c1_ownership_witness :
    getDataById exDB uAdmin 10 =
      { status := 403, errMsg := some "Access denied", db := exDB } ∧
    (∀ b : UpdateBody, putDataById exDB uAdmin 10 b =
      { status := 403, errMsg := some "Access denied", db := exDB }) ∧
    deleteDataById exDB uAdmin 10 =
      { status := 403, errMsg := some "Access denied", db := exDB } :=
  c1_ownership_rejects_nonowner exDB uAdmin 10 recA (by decide) (by decide)

/-- C3: the required authentication middleware answers 401 with a message
containing "no token provided." when no bearer token is present, 401
"Invalid token." on a bad signature, 401 "Token expired." on expiry, 401
when the referenced user is missing or deactivated, a fixed 500 message
(no internal detail) on unexpected verification/store errors, and
attaches the identity and proceeds exactly when the token decodes to an
active stored user. -/
theorem c3_authenticate_token_contract
    (verify : String → TokenOutcome) (lookup : Nat → LookupOutcome) :
    (authenticateToken verify lookup none =
        .respond 401 "Access denied. No token provided." ∧
      containsCI "Access denied. No token provided." "no token provided." = true) ∧
    (∀ t, verify t = .invalidSig →
      authenticateToken verify lookup (some t) = .respond 401 "Invalid token." ∧
      containsCI "Invalid token." "invalid token." = true) ∧
    (∀ t, verify t = .expired →
      authenticateToken verify lookup (some t) = .respond 401 "Token expired." ∧
      containsCI "Token expired." "token expired." = true) ∧
    (∀ t uid, verify t = .valid uid → lookup uid = .notFound →
      authenticateToken verify lookup (some t) =
        .respond 401 "Invalid token. User not found.") ∧
    (∀ t uid u, verify t = .valid uid → lookup uid = .found u →
      u.isActive = false →
      authenticateToken verify lookup (some t) =
        .respond 401 "Account is deactivated.") ∧
    (∀ t, verify t = .verifyError →
      authenticateToken verify lookup (some t) =
        .respond 500 "Internal server error during authentication.") ∧
    (∀ t uid, verify t = .valid uid → lookup uid = .storeError →
      authenticateToken verify lookup (some t) =
        .respond 500 "Internal server error during authentication.") ∧
    (∀ tok, authenticateToken verify lookup tok ≠ .proceed) ∧
    (∀ tok u, authenticateToken verify lookup tok = .attach u ↔
      ∃ t uid, tok = some t ∧ verify t = .valid uid ∧
        lookup uid = .found u ∧ u.isActive = true) := by
  refine ⟨⟨rfl, by decide⟩, ?_, ?_, ?_, ?_, ?_, ?_, ?_, ?_⟩
  · intro t h; exact ⟨by simp [authenticateToken, h], by decide⟩
  · intro t h; exact ⟨by simp [authenticateToken, h], by decide⟩
  · intro t uid h1 h2; simp [authenticateToken, h1, h2]
  · intro t uid u h1 h2 h3; simp [authenticateToken, h1, h2, h3]
  · intro t h; simp [authenticateToken, h]
  · intro t uid h1 h2; simp [authenticateToken, h1, h2]
  · intro tok
    cases tok with
    | none => simp [authenticateToken]
    | some t =>
      cases hv : verify t with
      | valid uid =>
        cases hl : lookup uid with
        | found u =>
          by_cases ha : u.isActive <;>
            simp [authenticateToken, hv, hl, ha]
        | notFound => simp [authenticateToken, hv, hl]
        | storeError => simp [authenticateToken, hv, hl]
      | invalidSig => simp [authenticateToken, hv]
      | expired => simp [authenticateToken, hv]
      | verifyError => simp [authenticateToken, hv]
  · intro tok u
    constructor
    · intro h
      cases tok with
      | none => simp [authenticateToken] at h
      | some t =>
        cases hv : verify t with
        | valid uid =>
          cases hl : lookup uid with
          | found w =>
            by_cases ha : w.isActive
            · refine ⟨t, uid, rfl, hv, ?_, ?_⟩ <;>
                simp [authenticateToken, hv, hl, ha] at h <;>
                simp [hl, ← h, ha]
            · simp [authenticateToken, hv, hl, ha] at h
          | notFound => simp [authenticateToken, hv, hl] at h
          | storeError => simp [authenticateToken, hv, hl] at h
        | invalidSig => simp [authenticateToken, hv] at h
        | expired => simp [authenticateToken, hv] at h
        | verifyError => simp [authenticateToken, hv] at h
    · rintro ⟨t, uid, rfl, hv, hl, ha⟩
      simp [authenticateToken, hv, hl, ha]

/-- C3 witness: the contract applied to the fixture codec and store — the
bad-signature, expiry, user-not-found implications fire on concrete
tokens, and the attach case fires on the good token. -/
theorem c3_authenticate_witness :
    (authenticateToken vFix lFix (some "zzz") =
      .respond 401 "Invalid token." ∧
      containsCI "Invalid token." "invalid token." = true) ∧
    (authenticateToken vFix lFix (some "tok-expired") =
      .respond 401 "Token expired." ∧
      containsCI "Token expired." "token expired." = true) ∧
    authenticateToken vFix lFix (some "tok-owner") = .attach uOwner :=
  ⟨(c3_authenticate_token_contract vFix lFix).2.1 "zzz" (by decide),
   (c3_authenticate_token_contract vFix lFix).2.2.1 "tok-expired" (by decide),
   ((c3_authenticate_token_contract vFix lFix).2.2.2.2.2.2.2.2
      (some "tok-owner") uOwner).mpr
     ⟨"tok-owner", 1, rfl, by decide, by decide, by decide⟩⟩

/-- C4: the optional authentication middleware never sends a response; it
attaches an identity exactly when the token decodes to an active stored
user, and in every other case proceeds without attaching. -/
theorem c4_optional_auth_contract
    (verify : String → TokenOutcome) (lookup : Nat → LookupOutcome)
    (tok : Option String) :
    (∀ s m, optionalAuth verify lookup tok ≠ .respond s m) ∧
    (∀ u, optionalAuth verify lookup tok = .attach u ↔
      ∃ t uid, tok = some t ∧ verify t = .valid uid ∧
        lookup uid = .found u ∧ u.isActive = true) ∧
    ((∀ u, optionalAuth verify lookup tok ≠ .attach u) →
      optionalAuth verify lookup tok = .proceed) := by
  have hcases : ∀ tok', optionalAuth verify lookup tok' = .proceed ∨
      ∃ t uid u, tok' = some t ∧ verify t = .valid uid ∧
        lookup uid = .found u ∧ u.isActive = true ∧
        optionalAuth verify lookup tok' = .attach u := by
    intro tok'
    cases tok' with
    | none => exact .inl rfl
    | some t =>
      cases hv : verify t with
      | valid uid =>
        cases hl : lookup uid with
        | found u =>
          by_cases ha : u.isActive
          · exact .inr ⟨t, uid, u, rfl, hv, hl, ha,
              by simp [optionalAuth, hv, hl, ha]⟩
          · exact .inl (by simp [optionalAuth, hv, hl, ha])
        | notFound => exact .inl (by simp [optionalAuth, hv, hl])
        | storeError => exact .inl (by simp [optionalAuth, hv, hl])
      | invalidSig => exact .inl (by simp [optionalAuth, hv])
      | expired => exact .inl (by simp [optionalAuth, hv])
      | verifyError => exact .inl (by simp [optionalAuth, hv])
  refine ⟨?_, ?_, ?_⟩
  · intro s m h
    rcases hcases tok with hp | ⟨t, uid, u, _, _, _, _, hat⟩
    · rw [hp] at h; exact MWResult.noConfusion h
    · rw [hat] at h; exact MWResult.noConfusion h
  · intro u
    constructor
    · intro h
      rcases hcases tok with hp | ⟨t, uid, w, ht, hv, hl, ha, hat⟩
      · rw [hp] at h; exact MWResult.noConfusion h
      · rw [hat] at h
        cases h
        exact ⟨t, uid, ht, hv, hl, ha⟩
    · rintro ⟨t, uid, rfl, hv, hl, ha⟩
      simp [optionalAuth, hv, hl, ha]
  · intro hno
    rcases hcases tok with hp | ⟨t, uid, u, _, _, _, _, hat⟩
    · exact hp
    · exact absurd hat (hno u)

/-- C4 witness: the contract applied to the fixture codec and store at an
invalid token (proceeds without identity) and at the good token (attaches
`uOwner`). -/
theorem c4_optional_auth_witness :
    optionalAuth vFix lFix (some "zzz") ≠ .respond 401 "Invalid token." ∧
    optionalAuth vFix lFix (some "tok-owner") = .attach uOwner :=
  ⟨(c4_optional_auth_contract vFix lFix (some "zzz")).1 401 "Invalid token.",
   ((c4_optional_auth_contract vFix lFix (some "tok-owner")).2.1 uOwner).mpr
     ⟨"tok-owner", 1, rfl, by decide, by decide, by decide⟩⟩

/-- C2: DELETE /api/user/account behaves identically for any two supplied
passwords (including an absent one): the handler destructures `password`
from the body but never reads it, so the response and the state change
are the same. -/
theorem c2_account_deletion_ignores_password (db : DB) (u : User)
    (p1 p2 : Option String) :
    deleteAccount db u p1 = deleteAccount db u p2 := rfl

/-- C10: a request reaching `requireAdmin` or `requireOwnership` without
an attached identity gets 401 "Authentication required.", and the 403
branch of either middleware is reachable only when an identity is
attached. -/
theorem c10_checks_require_identity :
    requireAdmin none = .respond 401 "Authentication required." ∧
    (∀ rid, requireOwnership rid none =
      .respond 401 "Authentication required.") ∧
    (∀ ru m, requireAdmin ru = .respond 403 m → ∃ u, ru = some u) ∧
    (∀ rid ru m, requireOwnership rid ru = .respond 403 m →
      ∃ u, ru = some u) := by
  refine ⟨rfl, fun _ => rfl, ?_, ?_⟩
  · intro ru m h
    cases ru with
    | none => simp [requireAdmin] at h
    | some u => exact ⟨u, rfl⟩
  · intro rid ru m h
    cases ru with
    | none => simp [requireOwnership] at h
    | some u => exact ⟨u, rfl⟩

/-- C10 witness: both 403 branches fire at concrete attached identities,
so the implications of the theorem are applied with their hypotheses
discharged on concrete inputs. -/
theorem c10_checks_witness :
    (∃ u, some uOwner = some u) ∧ (∃ u, some uOwner = some u) :=
  ⟨c10_checks_require_identity.2.2.1 (some uOwner) "Admin access required."
      (by decide),
   c10_checks_require_identity.2.2.2 7 (some uOwner)
      "Access denied. You can only modify your own resources." (by decide)⟩

/-- `applySet` never touches the document id. -/
lemma applySet_id (d : DataRecord) (uf : UpdateFields) :
    (applySet d uf).id = d.id := rfl

/-- `applySet` never touches the owning user reference. -/
lemma applySet_user (d : DataRecord) (uf : UpdateFields) :
    (applySet d uf).user = d.user := rfl

/-- Looking up an id after the by-id `$set` update yields the updated
version of the document that the lookup found before. -/
lemma find?_map_applySet (l : List DataRecord) (uf : UpdateFields)
    (rid : Nat) (d : DataRecord)
    (h : l.find? (fun r => r.id == rid) = some d) :
    (l.map (fun r => if r.id = rid then applySet r uf else r)).find?
      (fun r => r.id == rid) = some (applySet d uf) := by
  induction l with
  | nil => simp at h
  | cons r l ih =>
    by_cases hr : r.id = rid
    · simp [hr] at h
      subst h
      simp only [List.map_cons, if_pos hr]
      exact List.find?_cons_of_pos _ (by simp [applySet_id, hr])
    · simp [hr] at h
      simp only [List.map_cons, if_neg hr]
      rw [List.find?_cons_of_neg _ (by simp [hr])]
      exact ih h

/-- Characterisation of a successful `buildUpdateFields`: each entry of
the `$set` document is exactly the corresponding supplied body field
(trimmed or filtered as the handler does), and absent body fields leave
no entry. -/
lemma buildUpdateFields_ok (b : UpdateBody) (uf : UpdateFields)
    (h : buildUpdateFields b = .ok uf) :
    uf.title = b.title.map jsTrim ∧
    uf.description = b.description.map jsTrim ∧
    (b.category = none → uf.category = none) ∧
    (b.value = none → uf.value = none) ∧
    uf.unit = b.unit.map jsTrim ∧
    uf.tags = b.tags.map tagsOf ∧
    (b.status = none → uf.status = none) ∧
    uf.isPublic = b.isPublic := by
  unfold buildUpdateFields at h
  cases hc : checkCategory b.category with
  | error m => rw [hc] at h; simp [Bind.bind, Except.bind] at h
  | ok catF =>
    rw [hc] at h
    cases hv : checkValue b.value with
    | error m => rw [hv] at h; simp [Bind.bind, Except.bind] at h
    | ok valF =>
      rw [hv] at h
      cases hs : checkStatus b.status with
      | error m =>
        rw [hs] at h
        simp [Bind.bind, Except.bind, Functor.map, Except.map] at h
      | ok stF =>
        rw [hs] at h
        simp only [Bind.bind, Except.bind, Functor.map, Except.map,
          pure, Except.pure, Except.ok.injEq] at h
        subst h
        refine ⟨rfl, rfl, ?_, ?_, rfl, rfl, ?_, rfl⟩
        · intro hn; rw [hn] at hc
          simpa [checkCategory] using hc.symm
        · intro hn; rw [hn] at hv
          simpa [checkValue] using hv.symm
        · intro hn; rw [hn] at hs
          simpa [checkStatus] using hs.symm

/-- C5: account deletion removes the caller's data records first (the
resulting store is exactly the user-document deletion applied after the
data deletion), answers 200, and afterwards no record owned by the
deleted user remains: none is in the collection, none is found by the
by-id lookup, and no list query by any caller returns one. -/
theorem c5_account_deletion_cascades (db : DB) (u : User)
    (p : Option String) :
    (deleteAccount db u p).status = 200 ∧
    (deleteAccount db u p).db = deleteUserDoc (deleteUserData db u.id) u.id ∧
    (∀ r ∈ (deleteAccount db u p).db.records, r.user ≠ u.id) ∧
    (∀ rid r, findRecord (deleteAccount db u p).db rid = some r →
      r.user ≠ u.id) ∧
    (∀ sortFn caller q, (∀ l, ∀ x ∈ sortFn l, x ∈ l) →
      ∀ r ∈ (listData sortFn (deleteAccount db u p).db caller q).items,
        r.user ≠ u.id) := by
  have hrec : ∀ r ∈ (deleteAccount db u p).db.records, r.user ≠ u.id := by
    intro r hr
    have := List.mem_filter.mp hr
    simpa using this.2
  refine ⟨rfl, rfl, hrec, ?_, ?_⟩
  · intro rid r hfind
    exact hrec r (List.mem_of_find?_eq_some hfind)
  · intro sortFn caller q hsort r hr
    have h1 : r ∈ sortFn ((deleteAccount db u p).db.records.filter
        (matchesFilter caller.id q)) := by
      have := List.mem_of_mem_take hr
      exact List.mem_of_mem_drop this
    have h2 := hsort _ r h1
    exact hrec r (List.mem_filter.mp h2).1

/-- C5 witness: deleting `uOwner`'s account on the fixture store leaves no
record owned by `uOwner` reachable through the identity sort. -/
theorem c5_account_deletion_witness :
    (deleteAccount exDB uOwner none).status = 200 ∧
    (∀ r ∈ (deleteAccount exDB uOwner none).db.records, r.user ≠ uOwner.id) ∧
    (∀ r ∈ (listData id (deleteAccount exDB uOwner none).db uAdmin {}).items,
      r.user ≠ uOwner.id) :=
  ⟨(c5_account_deletion_cascades exDB uOwner none).1,
   (c5_account_deletion_cascades exDB uOwner none).2.2.1,
   (c5_account_deletion_cascades exDB uOwner none).2.2.2.2 id uAdmin {}
     (fun _ _ hx => hx)⟩

/-- C6: on a successful PUT /api/data/:id, every field absent from the
request body keeps its prior value in the stored record; in particular a
body containing only `status` leaves `title`, `value` and `tags`
unchanged. -/
theorem c6_partial_update_frame (db : DB) (u : User) (rid : Nat)
    (b : UpdateBody) (d d' : DataRecord)
    (hfind : findRecord db rid = some d)
    (hstatus : (putDataById db u rid b).status = 200)
    (hfind' : findRecord (putDataById db u rid b).db rid = some d') :
    (b.title = none → d'.title = d.title) ∧
    (b.description = none → d'.description = d.description) ∧
    (b.category = none → d'.category = d.category) ∧
    (b.value = none → d'.value = d.value) ∧
    (b.unit = none → d'.unit = d.unit) ∧
    (b.tags = none → d'.tags = d.tags) ∧
    (b.status = none → d'.status = d.status) ∧
    (b.isPublic = none → d'.isPublic = d.isPublic) := by
  by_cases hown : d.user = u.id
  · cases hb : buildUpdateFields b with
    | error m => simp [putDataById, hfind, hown, hb] at hstatus
    | ok uf =>
      have hdb : (putDataById db u rid b).db.records =
          db.records.map (fun r => if r.id = rid then applySet r uf else r) := by
        simp [putDataById, hfind, hown, hb]
      have hfound : findRecord (putDataById db u rid b).db rid =
          some (applySet d uf) := by
        unfold findRecord
        rw [hdb]
        exact find?_map_applySet db.records uf rid d hfind
      have hd' : d' = applySet d uf := by
        rw [hfound] at hfind'
        cases hfind'; rfl
      obtain ⟨ht, hde, hca, hva, hun, hta, hst, hip⟩ :=
        buildUpdateFields_ok b uf hb
      subst hd'
      refine ⟨fun hn => ?_, fun hn => ?_, fun hn => ?_, fun hn => ?_,
        fun hn => ?_, fun hn => ?_, fun hn => ?_, fun hn => ?_⟩
      · simp [applySet, ht, hn]
      · simp [applySet, hde, hn]
      · simp [applySet, hca hn]
      · simp [applySet, hva hn]
      · simp [applySet, hun, hn]
      · simp [applySet, hta, hn]
      · simp [applySet, hst hn]
      · simp [applySet, hip, hn]
  · simp [putDataById, hfind, hown] at hstatus

/-- C6 witness: updating only `status` on the fixture record leaves
`title`, `value` and `tags` (and all other omitted fields) unchanged. -/
theorem c6_partial_update_witness :
    (applySet recA { status := some "inactive" }).title = recA.title ∧
    (applySet recA { status := some "inactive" }).value = recA.value ∧
    (applySet recA { status := some "inactive" }).tags = recA.tags := by
  have h := c6_partial_update_frame exDB uOwner 10
    { status := some "inactive" } recA
    (applySet recA { status := some "inactive" })
    (by decide) (by decide) (by decide)
  exact ⟨h.1 rfl, h.2.2.2.1 rfl, h.2.2.2.2.2.1 rfl⟩

/-- C7: POST /api/data with a category outside the enum, or with a value
that is negative or not a number, always answers 400 and inserts
nothing. -/
theorem c7_create_validation (db : DB) (u : User) (nid : Nat)
    (b : CreateBody) :
    (∀ c, b.category = some c → c ∉ validCategories →
      (postData db u nid b).status = 400 ∧ (postData db u nid b).db = db) ∧
    (∀ v, b.value = some v →
      (v = .notNum ∨ ∃ n, v = .num n ∧ n < 0) →
      (postData db u nid b).status = 400 ∧ (postData db u nid b).db = db) := by
  constructor
  · intro c hcat hc
    cases ht : b.title with
    | none => simp [postData, ht, hcat]
    | some t =>
      cases hv : b.value with
      | none => simp [postData, ht, hcat, hv]
      | some v =>
        by_cases hte : t = "" ∨ c = "" <;>
          simp [postData, ht, hcat, hv, hte, hc]
  · intro v hval hbad
    cases ht : b.title with
    | none => simp [postData, ht, hval]
    | some t =>
      cases hcat : b.category with
      | none => simp [postData, ht, hcat, hval]
      | some c =>
        by_cases hte : t = "" ∨ c = ""
        · simp [postData, ht, hcat, hval, hte]
        · by_cases hcon : c ∈ validCategories
          · rcases hbad with rfl | ⟨n, rfl, hn⟩
            · simp [postData, ht, hcat, hval, hte, hcon]
            · simp [postData, ht, hcat, hval, hte, hcon, hn]
          · simp [postData, ht, hcat, hval, hte, hcon]

/-- C7 witness: a create with category "finance" and one with value −5
are both rejected with 400 and leave the fixture store unchanged. -/
theorem c7_create_validation_witness :
    ((postData exDB uOwner 11
      { title := some "x", category := some "finance",
        value := some (.num 1) }).status = 400 ∧
     (postData exDB uOwner 11
      { title := some "x", category := some "finance",
        value := some (.num 1) }).db = exDB) ∧
    ((postData exDB uOwner 11
      { title := some "x", category := some "metrics",
        value := some (.num (-5)) }).status = 400 ∧
     (postData exDB uOwner 11
      { title := some "x", category := some "metrics",
        value := some (.num (-5)) }).db = exDB) :=
  ⟨(c7_create_validation exDB uOwner 11
      { title := some "x", category := some "finance",
        value := some (.num 1) }).1 "finance" rfl (by decide),
   (c7_create_validation exDB uOwner 11
      { title := some "x", category := some "metrics",
        value := some (.num (-5)) }).2 (.num (-5)) rfl
     (Or.inr ⟨-5, rfl, by decide⟩)⟩

/-- C9: the owning user reference is set at creation to the caller's id
and no update request can change it — the `$set` document built by the
PUT handler has no `user` entry, so every record keeps its id and owner
across any PUT, and a successful POST appends a record owned by the
caller. -/
theorem c9_owner_reference_immutable (db : DB) (u : User) :
    (∀ nid b, (postData db u nid b).status = 201 →
      ∃ nd, (postData db u nid b).db.records = db.records ++ [nd] ∧
        nd.user = u.id) ∧
    (∀ rid b, (putDataById db u rid b).db.records.map
        (fun r => (r.id, r.user)) =
      db.records.map (fun r => (r.id, r.user))) := by
  constructor
  · intro nid b hs
    cases ht : b.title with
    | none => simp [postData, ht] at hs
    | some t =>
      cases hcat : b.category with
      | none => simp [postData, ht, hcat] at hs
      | some c =>
        cases hv : b.value with
        | none => simp [postData, ht, hcat, hv] at hs
        | some v =>
          by_cases hte : t = "" ∨ c = ""
          · simp [postData, ht, hcat, hv, hte] at hs
          · by_cases hcon : c ∈ validCategories
            · cases v with
              | notNum => simp [postData, ht, hcat, hv, hte, hcon] at hs
              | num n =>
                by_cases hn : n < 0
                · simp [postData, ht, hcat, hv, hte, hcon, hn] at hs
                · have hrec : (postData db u nid b).db.records =
                      db.records ++
                        [{ id := nid, title := jsTrim t,
                           description := jsTrim (b.description.getD ""),
                           category := c, value := n,
                           unit := jsTrim (b.unit.getD ""),
                           status := "active",
                           tags := (b.tags.map tagsOf).getD [],
                           isPublic := b.isPublic.getD false,
                           metaSource := b.metaSource.getD "manual",
                           user := u.id }] := by
                    simp [postData, ht, hcat, hv, hte, hcon, hn]
                  exact ⟨_, hrec, rfl⟩
            · simp [postData, ht, hcat, hv, hte, hcon] at hs
  · intro rid b
    cases hfind : findRecord db rid with
    | none => simp [putDataById, hfind]
    | some d =>
      by_cases hown : d.user = u.id
      · cases hb : buildUpdateFields b with
        | error m => simp [putDataById, hfind, hown, hb]
        | ok uf =>
          have hdb : (putDataById db u rid b).db.records =
              db.records.map
                (fun r => if r.id = rid then applySet r uf else r) := by
            simp [putDataById, hfind, hown, hb]
          rw [hdb, List.map_map]
          apply List.map_congr_left
          intro r _
          by_cases hr : r.id = rid <;>
            simp [Function.comp, hr, applySet_id, applySet_user]
      · simp [putDataById, hfind, hown]

/-- C9 witness: creating the spec's example record as `uOwner` appends a
record owned by `uOwner`. -/
theorem c9_owner_reference_witness :
    ∃ nd, (postData exDB uOwner 11
      { title := some "CPU", category := some "metrics",
        value := some (.num 42), unit := some "%" }).db.records =
      exDB.records ++ [nd] ∧ nd.user = uOwner.id :=
  (c9_owner_reference_immutable exDB uOwner).1 11
    { title := some "CPU", category := some "metrics",
      value := some (.num 42), unit := some "%" } (by decide)

/-- `jsCeilDiv` is left adjoint to multiplication: the code's
`(total + limit - 1) / limit` is the least page count covering `total`. -/
lemma jsCeilDiv_le_iff (a b c : ℕ) (hb : 0 < b) :
    jsCeilDiv a b ≤ c ↔ a ≤ b * c :=
  (ceilDiv_le_iff_le_mul hb : a ⌈/⌉ b ≤ c ↔ a ≤ b * c)

/-- For a positive limit, the code's `Math.ceil(total / limit)` equals
the mathematical ceiling of the rational quotient. -/
lemma jsCeilDiv_eq_ceil (a b : ℕ) (hb : 0 < b) :
    (jsCeilDiv a b : ℤ) = ⌈(a : ℚ) / (b : ℚ)⌉ := by
  have hbq : (0 : ℚ) < (b : ℚ) := by exact_mod_cast hb
  have key : ∀ c : ℕ, jsCeilDiv a b ≤ c ↔ a ≤ b * c := fun c =>
    jsCeilDiv_le_iff a b c hb
  have h1 : a ≤ b * jsCeilDiv a b := (key _).1 le_rfl
  rcases Nat.eq_zero_or_pos (jsCeilDiv a b) with h0 | hpos
  · have ha0 : a = 0 := by
      have h := (key 0).1 (le_of_eq h0)
      omega
    rw [h0, ha0]
    simp
  · have h2 : b * (jsCeilDiv a b - 1) < a := by
      by_contra hle
      push_neg at hle
      have := (key (jsCeilDiv a b - 1)).2 hle
      omega
    rw [eq_comm, Int.ceil_eq_iff]
    constructor
    · push_cast
      rw [lt_div_iff₀ hbq]
      rw [show ((jsCeilDiv a b : ℚ) - 1) = ((jsCeilDiv a b - 1 : ℕ) : ℚ) by
        rw [Nat.cast_sub hpos]; simp]
      have h2' : (jsCeilDiv a b - 1) * b < a := by
        rw [Nat.mul_comm] at h2; exact h2
      exact_mod_cast h2'
    · push_cast
      rw [div_le_iff₀ hbq]
      have h1' : a ≤ jsCeilDiv a b * b := by
        rw [Nat.mul_comm] at h1; exact h1
      exact_mod_cast h1'

/-- C8: on both paginated list endpoints (GET /api/data and
GET /api/user/search) with a positive limit `L`, the returned page holds
at most `L` items and the envelope echoes `page`, `limit` and the total
count of matching documents, with `pages = ceil(total / L)`. -/
theorem c8_pagination_envelope :
    (∀ sortFn db u q, 0 < q.limit →
      (listData sortFn db u q).items.length ≤ q.limit ∧
      ∃ pg, (listData sortFn db u q).pagination = some pg ∧
        pg.page = q.page ∧ pg.limit = q.limit ∧
        pg.total = (db.records.filter (matchesFilter u.id q)).length ∧
        (pg.pages : ℤ) = ⌈(pg.total : ℚ) / (q.limit : ℚ)⌉) ∧
    (∀ sortFnU db qs limit page, 0 < limit → 2 ≤ (jsTrim qs).length →
      (searchUsers sortFnU db (some qs) limit page).items.length ≤ limit ∧
      ∃ pg, (searchUsers sortFnU db (some qs) limit page).pagination =
          some pg ∧
        pg.page = page ∧ pg.limit = limit ∧
        pg.total = (db.users.filter (matchesUserSearch (jsTrim qs))).length ∧
        (pg.pages : ℤ) = ⌈(pg.total : ℚ) / (limit : ℚ)⌉) := by
  constructor
  · intro sortFn db u q hl
    refine ⟨List.length_take_le _ _, ⟨_, rfl, rfl, rfl, rfl, ?_⟩⟩
    exact jsCeilDiv_eq_ceil _ _ hl
  · intro sortFnU db qs limit page hl hq
    have hnot : ¬ (jsTrim qs).length < 2 := by omega
    constructor
    · simp only [searchUsers, if_neg hnot]
      exact List.length_take_le _ _
    · refine ⟨⟨page, limit,
        (db.users.filter (matchesUserSearch (jsTrim qs))).length,
        jsCeilDiv (db.users.filter (matchesUserSearch (jsTrim qs))).length
          limit⟩, ?_, rfl, rfl, rfl, ?_⟩
      · simp only [searchUsers, if_neg hnot]
      · exact jsCeilDiv_eq_ceil _ _ hl

/-- C8 witness: on the fixture store, a list query with limit 1 and a
user search matching both fixture users with limit 1 both return at most
one item and a correct envelope. -/
theorem c8_pagination_witness :
    ((listData id exDB uOwner { limit := 1 }).items.length ≤ 1 ∧
      ∃ pg, (listData id exDB uOwner { limit := 1 }).pagination = some pg ∧
        pg.page = 1 ∧ pg.limit = 1 ∧
        pg.total = (exDB.records.filter
          (matchesFilter uOwner.id { limit := 1 })).length ∧
        (pg.pages : ℤ) = ⌈(pg.total : ℚ) / ((1 : ℕ) : ℚ)⌉) ∧
    ((searchUsers id exDB (some "example.com") 1 1).items.length ≤ 1 ∧
      ∃ pg, (searchUsers id exDB (some "example.com") 1 1).pagination =
          some pg ∧
        pg.page = 1 ∧ pg.limit = 1 ∧
        pg.total = (exDB.users.filter
          (matchesUserSearch (jsTrim "example.com"))).length ∧
        (pg.pages : ℤ) = ⌈(pg.total : ℚ) / ((1 : ℕ) : ℚ)⌉) :=
  ⟨c8_pagination_envelope.1 id exDB uOwner { limit := 1 } (by decide),
   c8_pagination_envelope.2 id exDB "example.com" 1 1 (by decide) (by decide)⟩

end Dashbord
